import Mathlib

/-!
Verification development for the takeout archive downloader
(src/takeout_automation/exporter.py).

The Python source is shallowly embedded below:

* String membership (the Python `in` operator on strings) is embedded as
  an executable substring test on character lists.
* Python `str.split(sep)`, `str.split()` and `int(...)` are embedded by
  executable functions with the same observable behaviour on the inputs
  the program feeds them (ASCII digits, optional sign, underscores
  between digits).
* The page classifier and the authentication state machine of
  AuthenticationStateMachine are embedded as pure functions over an
  abstract page (URL string plus the outcome of the password-input
  locator query) and an explicit machine state, driven by a list of
  classifications (one per tick).
* The catalog extraction extract_parts_info, the lookup
  find_part_to_download and the persistence step handle_download are
  embedded directly; operations that can raise are given Except/Option
  results, and exception handlers in the source become the
  corresponding branches here.
* The download_files loop is embedded as a step function consuming one
  per-iteration environment record (whether the operator lets the
  iteration proceed, the page content the catalog is extracted from,
  and the outcome of the download attempt), together with a driver that
  folds the step function over a list of such records.  The observable
  side effects of one iteration are recorded as an action trace.
-/

/-- One step of a character-list comparison: the first list read in
parallel against the front of the second. -/
def leadsWith : List Char → List Char → Bool
  | [], _ => true
  | _ :: _, [] => false
  | a :: as, b :: bs => a == b && leadsWith as bs

/-- Substring occurrence on character lists; `occursIn n h` is the
Python expression `n in h` for strings. -/
def occursIn (needle : List Char) : List Char → Bool
  | [] => needle.isEmpty
  | b :: bs => leadsWith needle (b :: bs) || occursIn needle bs

/-- Python string membership `needle in haystack`. -/
def strContains (needle haystack : String) : Bool :=
  occursIn needle.data haystack.data

/-- Maximal non-whitespace runs of a character list, accumulating the
current run in reverse; implements Python `str.split()` with no
separator (whitespace runs are separators, empty pieces dropped). -/
def wsFieldsAux : List Char → List Char → List (List Char)
  | [], acc => if acc.isEmpty then [] else [acc.reverse]
  | c :: rest, acc =>
    if c.isWhitespace then
      if acc.isEmpty then wsFieldsAux rest []
      else acc.reverse :: wsFieldsAux rest []
    else wsFieldsAux rest (c :: acc)

/-- Python `str.split()` with no separator. -/
def pyStrSplitWs (s : String) : List String :=
  (wsFieldsAux s.data []).map (fun cs => String.mk cs)

/-- Piece before the first occurrence of the separator and the
remainder after it, or `none` when the separator does not occur. -/
def breakOnSep (sep : List Char) : List Char → Option (List Char × List Char)
  | [] => if sep.isEmpty then some ([], []) else none
  | c :: rest =>
    if leadsWith sep (c :: rest) then some ([], (c :: rest).drop sep.length)
    else
      match breakOnSep sep rest with
      | none => none
      | some (pre, post) => some (c :: pre, post)

/-- Fuelled splitting on a separator; each recursion strictly shortens
the list when the separator is non-empty, so a fuel equal to the length
of the list is always sufficient. -/
def splitOnFuel (sep : List Char) : Nat → List Char → List (List Char)
  | 0, l => [l]
  | fuel + 1, l =>
    match breakOnSep sep l with
    | none => [l]
    | some (pre, post) => pre :: splitOnFuel sep fuel post

/-- Python `s.split(sep)` for a non-empty separator string: split on
every non-overlapping occurrence, left to right. -/
def pySplitOn (s sep : String) : List String :=
  if sep.data.isEmpty then [s]
  else (splitOnFuel sep.data s.data.length s.data).map (fun cs => String.mk cs)

/-- Numeric value of an ASCII digit. -/
def digitVal (c : Char) : Nat := c.toNat - 48

/-- Remaining digits of a Python integer literal: digits possibly
separated by single underscores (an underscore must sit between two
digits). -/
def parseDigitsAux : List Char → Nat → Option Nat
  | [], acc => some acc
  | '_' :: c :: rest, acc =>
    if c.isDigit then parseDigitsAux rest (acc * 10 + digitVal c) else none
  | c :: rest, acc =>
    if c.isDigit then parseDigitsAux rest (acc * 10 + digitVal c) else none

/-- Digit run of a Python integer literal (at least one digit). -/
def parsePyDigits : List Char → Option Nat
  | [] => none
  | c :: rest => if c.isDigit then parseDigitsAux rest (digitVal c) else none

/-- Python `int(s)` on ASCII input: optional surrounding whitespace,
optional sign, digits with underscores; `none` models a ValueError. -/
def parsePyInt (s : String) : Option Int :=
  let cs := ((s.data.dropWhile Char.isWhitespace).reverse.dropWhile
    Char.isWhitespace).reverse
  match cs with
  | '+' :: rest => (parsePyDigits rest).map (fun n => (n : Int))
  | '-' :: rest => (parsePyDigits rest).map (fun n => -(n : Int))
  | _ => (parsePyDigits cs).map (fun n => (n : Int))

/-- URL fragment identifying the archive console page. -/
def GOOGLE_ARCHIVE_URL_PART : String := "takeout.google.com/manage/archive"

/-- URL fragment identifying the sign-in identifier page. -/
def GOOGLE_IDENTIFIER_PAGE_URL_PART : String :=
  "accounts.google.com/v3/signin/identifier"

/-- URL fragment identifying the password challenge page. -/
def GOOGLE_PASSWORD_PAGE_URL_PART : String :=
  "accounts.google.com/v3/signin/challenge/pwd"

/-- URL fragment identifying the generic challenge (2FA) page. -/
def GOOGLE_2FA_PAGE_URL_PART : String :=
  "accounts.google.com/v3/signin/challenge"

/-- Authentication states of the state machine (AuthState in the
source). -/
inductive AuthState where
  | UNKNOWN
  | ARCHIVE_READY
  | NEEDS_IDENTIFIER
  | NEEDS_PASSWORD
  | NEEDS_2FA
  | ERROR
deriving Repr, DecidableEq

/-- Abstract browser page as the classifier observes it: the current
URL, and the outcome of the password-input locator query
(`none` models the locator raising, which the source catches). -/
structure PageC where
  url : String
  passwordInputs : Option Nat
deriving Repr, DecidableEq

/-- detect_archive_page: archive URL fragment occurs in the page URL. -/
def detect_archive_page (pg : PageC) : Bool :=
  strContains GOOGLE_ARCHIVE_URL_PART pg.url

/-- detect_identifier_page: identifier URL fragment occurs in the page
URL. -/
def detect_identifier_page (pg : PageC) : Bool :=
  strContains GOOGLE_IDENTIFIER_PAGE_URL_PART pg.url

/-- detect_password_page: password URL fragment occurs in the URL and at
least one password input element is present; a failing locator query is
caught and yields false. -/
def detect_password_page (pg : PageC) : Bool :=
  if !strContains GOOGLE_PASSWORD_PAGE_URL_PART pg.url then false
  else
    match pg.passwordInputs with
    | none => false
    | some n => decide (0 < n)

/-- detect_2fa_page: challenge URL fragment occurs in the URL while the
password sub-fragment does not. -/
def detect_2fa_page (pg : PageC) : Bool :=
  strContains GOOGLE_2FA_PAGE_URL_PART pg.url &&
    !strContains GOOGLE_PASSWORD_PAGE_URL_PART pg.url

/-- evaluate_state: classification precedence archive, identifier,
password, 2FA, otherwise UNKNOWN. -/
def evaluate_state (pg : PageC) : AuthState :=
  if detect_archive_page pg then .ARCHIVE_READY
  else if detect_identifier_page pg then .NEEDS_IDENTIFIER
  else if detect_password_page pg then .NEEDS_PASSWORD
  else if detect_2fa_page pg then .NEEDS_2FA
  else .UNKNOWN

/-- Mutable state of AuthenticationStateMachine: the last handled state
and the consecutive-unknown counter. -/
structure MachineState where
  current_state : AuthState
  unknown_count : Nat
deriving Repr, DecidableEq

/-- Initial machine state set in the constructor. -/
def authInit : MachineState :=
  { current_state := .UNKNOWN, unknown_count := 0 }

/-- Observable recovery action performed by one tick of the machine. -/
inductive TickAction where
  | promptIdentifier
  | passwordEntry
  | prompt2fa
  | promptUnknown
  | waitRetry
  | readyDone
  | noAction
deriving Repr, DecidableEq

/-- One iteration of the run_until_ready loop given the classification
of the current tick: update the consecutive-unknown counter, call
handle_state when the state changed or is UNKNOWN, and report whether
the loop returns (archive ready). -/
def tick (st : MachineState) (cls : AuthState) : MachineState × TickAction × Bool :=
  let cnt := if cls = .UNKNOWN then st.unknown_count + 1 else 0
  if cls ≠ st.current_state ∨ cls = .UNKNOWN then
    match cls with
    | .ARCHIVE_READY =>
      ({ current_state := cls, unknown_count := cnt }, .readyDone, true)
    | .NEEDS_IDENTIFIER =>
      ({ current_state := cls, unknown_count := cnt }, .promptIdentifier, false)
    | .NEEDS_PASSWORD =>
      ({ current_state := cls, unknown_count := cnt }, .passwordEntry, false)
    | .NEEDS_2FA =>
      ({ current_state := cls, unknown_count := cnt }, .prompt2fa, false)
    | .ERROR =>
      ({ current_state := cls, unknown_count := cnt }, .noAction, false)
    | .UNKNOWN =>
      if cnt > 10 then
        ({ current_state := cls, unknown_count := 0 }, .promptUnknown, false)
      else
        ({ current_state := cls, unknown_count := cnt }, .waitRetry, false)
  else
    ({ st with unknown_count := cnt }, .noAction, decide (cls = .ARCHIVE_READY))

/-- run_until_ready driven by a list of per-tick classifications:
returns the final machine state, the trace of actions, and whether the
archive-ready return was reached before the list was exhausted. -/
def runTicks : MachineState → List AuthState → MachineState × List TickAction × Bool
  | st, [] => (st, [], false)
  | st, c :: rest =>
    let r := tick st c
    if r.2.2 then (r.1, [r.2.1], true)
    else
      let r2 := runTicks r.1 rest
      (r2.1, r.2.1 :: r2.2.1, r2.2.2)

/-- Length of the trailing run of UNKNOWN classifications in a tick
list, i.e. the number of consecutive Unknown classifications since the
last non-Unknown tick. -/
def trailingUnknowns : List AuthState → Nat
  | [] => 0
  | c :: rest =>
    if c = .UNKNOWN ∧ rest.all (fun s => s == AuthState.UNKNOWN) then
      rest.length + 1
    else trailingUnknowns rest

/-- Catalog record for one downloadable part (PartInfo in the source). -/
structure PartInfo where
  part_number : Int
  link : String
  downloaded : Bool
  size : Option Int
deriving Repr, DecidableEq

/-- One download-affordance element of the rendered page, as
extract_parts_info observes it: the aria-label attribute, the href
attribute, the text content of the nearest enclosing list item
(the source collapses a missing text to the empty string), and the
data-size attribute of the nearest ancestor carrying one. -/
structure LinkElem where
  aria_label : Option String
  href : Option String
  li_text : String
  data_size : Option String
deriving Repr, DecidableEq

/-- Processing of a single link element inside extract_parts_info.
`ok none` is a `continue` (missing or unparseable label, missing href);
`error ()` is the uncaught ValueError raised by `int(size_str)` on a
non-numeric, non-empty data-size attribute. -/
def extractOne (l : LinkElem) : Except Unit (Option PartInfo) :=
  match l.aria_label with
  | none => .ok none
  | some lbl =>
    if lbl = "" then .ok none
    else
      match (pySplitOn lbl "part ").get? 1 with
      | none => .ok none
      | some seg =>
        match (pyStrSplitWs seg).head? with
        | none => .ok none
        | some part_str =>
          match parsePyInt part_str with
          | none => .ok none
          | some pn =>
            match l.href with
            | none => .ok none
            | some hrefv =>
              if hrefv = "" then .ok none
              else
                let dl := strContains "Download started" l.li_text
                match l.data_size with
                | none =>
                  .ok (some { part_number := pn, link := hrefv,
                              downloaded := dl, size := none })
                | some sstr =>
                  if sstr = "" then
                    .ok (some { part_number := pn, link := hrefv,
                                downloaded := dl, size := none })
                  else
                    match parsePyInt sstr with
                    | none => .error ()
                    | some sz =>
                      .ok (some { part_number := pn, link := hrefv,
                                  downloaded := dl, size := some sz })

/-- The accumulation loop of extract_parts_info over all located link
elements, in page order, before sorting. -/
def extractList : List LinkElem → Except Unit (List PartInfo)
  | [] => .ok []
  | l :: rest =>
    match extractOne l with
    | .error e => .error e
    | .ok none => extractList rest
    | .ok (some p) =>
      match extractList rest with
      | .error e => .error e
      | .ok ps => .ok (p :: ps)

/-- Sort key order used by `parts.sort(key=lambda x: x["part_number"])`. -/
def partOrder (a b : PartInfo) : Prop := a.part_number ≤ b.part_number

instance : DecidableRel partOrder := fun a b =>
  inferInstanceAs (Decidable (a.part_number ≤ b.part_number))

/-- extract_parts_info: process every link element and return the
records sorted ascending by part number (a stable sort, like the
source); `none` models the uncaught size-parse exception. -/
def extract_parts_info (links : List LinkElem) : Option (List PartInfo) :=
  match extractList links with
  | .error _ => none
  | .ok ps => some (List.insertionSort partOrder ps)

/-- find_part_to_download: first record with the requested part number,
or the ValueError message reporting the requested part and all
available part numbers. -/
def find_part_to_download (parts : List PartInfo) (part_number : Int) :
    Except String PartInfo :=
  match parts.find? (fun p => p.part_number == part_number) with
  | some p => .ok p
  | none =>
    .error ("Fatal error: Part " ++ toString part_number
      ++ " not found in available parts. Available parts: "
      ++ toString (parts.map (fun p => p.part_number)))

/-- Completed native download handle as handle_download observes it:
the suggested filename, the byte size of the saved artifact, and
whether removing the temporary file succeeds. -/
structure DownloadH where
  suggested_filename : String
  actualSize : Nat
  unlinkOk : Bool
deriving Repr, DecidableEq

/-- Observable outcome of handle_download: whether the size-mismatch
warning was printed, whether removal of the temporary file was
attempted, and whether the removal-failure warning was printed.  The
function is total: neither a size mismatch nor a failing removal raises
(the removal attempt is wrapped in an exception handler in the
source). -/
structure HDResult where
  sizeMismatchWarned : Bool
  attemptedRemove : Bool
  removeWarned : Bool
deriving Repr, DecidableEq

/-- handle_download: save the artifact, compare the actual size with
the expected size when one is supplied (warning only), then always
attempt to remove the temporary file (failure is a warning only). -/
def handle_download (d : DownloadH) (expected_size : Option Int) : HDResult :=
  let mismatch :=
    match expected_size with
    | none => false
    | some e => decide ((d.actualSize : Int) ≠ e)
  { sizeMismatchWarned := mismatch
    attemptedRemove := true
    removeWarned := !d.unlinkOk }

/-- Outcome of the download attempt (the try block of download_files):
success, an exception before the link was clicked, or an exception
after the click. -/
inductive DlOutcome where
  | success
  | failBeforeClick
  | failAfterClick
deriving Repr, DecidableEq

/-- External environment of one iteration of the download_files loop:
whether the operator lets the iteration proceed during the confirmation
wait, the link elements the page presents to the catalog extraction,
and the outcome of the download attempt. -/
structure IterEnv where
  userContinues : Bool
  links : List LinkElem
  download : DlOutcome
deriving Repr, DecidableEq

/-- Observable side effects of the download_files loop. -/
inductive LoopAct where
  | confirm (i : Int)
  | authRec
  | trigger (i : Int)
  | authRecPost
  | persist (i : Int)
  | skipPart (i : Int)
deriving Repr, DecidableEq

/-- Control outcome of one iteration of the download_files loop. -/
inductive StepRes where
  | interrupted
  | errExtract
  | fatal (msg : String)
  | continueWith (i : Int)
  | finished (i : Int)
deriving Repr, DecidableEq

/-- Python max over the part numbers of a catalog; the empty case is
unreachable in the loop (guarded by the emptiness check). -/
def maxPartNumber (parts : List PartInfo) : Int :=
  match parts with
  | [] => 0
  | p :: rest => rest.foldl (fun m q => max m q.part_number) p.part_number

/-- One iteration of the while loop of download_files at cursor `i`:
confirmation wait, authentication recovery, catalog extraction,
emptiness check, part lookup (a failure here propagates), skip branch,
then the download attempt (a failure here is retried without advancing
the cursor); after a successful download the cursor advances and the
loop ends when it exceeds the maximum part number of this catalog. -/
def stepOnce (skip_downloaded : Bool) (i : Int) (env : IterEnv) :
    StepRes × List LoopAct :=
  if env.userContinues then
    match extract_parts_info env.links with
    | none => (.errExtract, [.confirm i, .authRec])
    | some parts =>
      if parts.isEmpty then (.continueWith i, [.confirm i, .authRec])
      else
        match find_part_to_download parts i with
        | .error msg => (.fatal msg, [.confirm i, .authRec])
        | .ok part =>
          if part.downloaded && skip_downloaded then
            (.continueWith (i + 1), [.confirm i, .authRec, .skipPart i])
          else
            match env.download with
            | .success =>
              if i + 1 > maxPartNumber parts then
                (.finished (i + 1),
                 [.confirm i, .authRec, .trigger i, .authRecPost, .persist i])
              else
                (.continueWith (i + 1),
                 [.confirm i, .authRec, .trigger i, .authRecPost, .persist i])
            | .failAfterClick => (.continueWith i, [.confirm i, .authRec, .trigger i])
            | .failBeforeClick => (.continueWith i, [.confirm i, .authRec])
  else (.interrupted, [])

/-- Final outcome of a download_files run. -/
inductive RunOut where
  | interrupted
  | errExtract
  | fatalErr (msg : String)
  | completed
  | running (i : Int)
deriving Repr, DecidableEq

/-- The download_files loop folded over a list of per-iteration
environments, accumulating the action trace; `running i` means the
environment list was exhausted with the loop still going at cursor
`i`. -/
def run_loop (skip_downloaded : Bool) : Int → List IterEnv → RunOut × List LoopAct
  | i, [] => (.running i, [])
  | i, env :: rest =>
    match stepOnce skip_downloaded i env with
    | (.interrupted, a) => (.interrupted, a)
    | (.errExtract, a) => (.errExtract, a)
    | (.fatal m, a) => (.fatalErr m, a)
    | (.finished _, a) => (.completed, a)
    | (.continueWith i2, a) =>
      let r := run_loop skip_downloaded i2 rest
      (r.1, a ++ r.2)

/-- Successive cursor values of a download_files run, starting with the
initial cursor and ending with the cursor after the last executed
iteration. -/
def cursorTrace (skip_downloaded : Bool) : Int → List IterEnv → List Int
  | i, [] => [i]
  | i, env :: rest =>
    match stepOnce skip_downloaded i env with
    | (.continueWith i2, _) => i :: cursorTrace skip_downloaded i2 rest
    | (.finished i2, _) => [i, i2]
    | _ => [i]

/-- Link element rendering part 1 (not yet downloaded, declared size
500) of the two-part end-to-end scenario. -/
def c1link1 : LinkElem :=
  { aria_label := some "Download part 1 of 2"
    href := some "https://takeout.google.com/dl?p=1"
    li_text := "part 1 of 2", data_size := some "500" }

/-- Link element rendering part 2 (already downloaded, declared size
700) of the two-part end-to-end scenario. -/
def c1link2 : LinkElem :=
  { aria_label := some "Download again part 2 of 2"
    href := some "https://takeout.google.com/dl?p=2"
    li_text := "Download started part 2 of 2", data_size := some "700" }

/-- Iteration environment of the end-to-end scenario: the operator lets
every iteration proceed, the page always renders the same two parts,
and download attempts succeed. -/
def c1env : IterEnv :=
  { userContinues := true, links := [c1link1, c1link2], download := .success }

/-- A page repeating the label of part 1 on two distinct link
elements (first copy). -/
def c3dupA : LinkElem :=
  { aria_label := some "Download part 1 of 2", href := some "u1"
    li_text := "", data_size := none }

/-- A page repeating the label of part 1 on two distinct link
elements (second copy). -/
def c3dupB : LinkElem :=
  { aria_label := some "Download part 1 of 2", href := some "u2"
    li_text := "", data_size := none }

/-- Well-formed link element for part 2, listed before part 1 on the
page. -/
def c3okA : LinkElem :=
  { aria_label := some "Download part 2 of 2", href := some "v2"
    li_text := "", data_size := none }

/-- Well-formed link element for part 1, listed after part 2 on the
page. -/
def c3okB : LinkElem :=
  { aria_label := some "Download part 1 of 2", href := some "v1"
    li_text := "", data_size := none }

/-- A password-challenge page with one password input element. -/
def c4page : PageC :=
  { url := "https://accounts.google.com/v3/signin/challenge/pwd?hl=en"
    passwordInputs := some 1 }

/-- Link element for part 1 of a three-part catalog. -/
def c5link1 : LinkElem :=
  { aria_label := some "Download part 1 of 3", href := some "h1"
    li_text := "", data_size := none }

/-- Link element for part 2 of a three-part catalog. -/
def c5link2 : LinkElem :=
  { aria_label := some "Download part 2 of 3", href := some "h2"
    li_text := "", data_size := none }

/-- Link element for part 3 of a three-part catalog. -/
def c5link3 : LinkElem :=
  { aria_label := some "Download part 3 of 3", href := some "h3"
    li_text := "", data_size := none }

/-- Iteration environment presenting the three-part catalog. -/
def c5env : IterEnv :=
  { userContinues := true, links := [c5link1, c5link2, c5link3]
    download := .success }

/-- The catalog extracted from the three-part page. -/
def c5parts : List PartInfo :=
  [{ part_number := 1, link := "h1", downloaded := false, size := none },
   { part_number := 2, link := "h2", downloaded := false, size := none },
   { part_number := 3, link := "h3", downloaded := false, size := none }]

/-- Link element of a one-part catalog, not yet downloaded. -/
def c6link : LinkElem :=
  { aria_label := some "Download part 1 of 1", href := some "g1"
    li_text := "", data_size := none }

/-- Iteration environment for the one-part catalog with a successful
download. -/
def c6env : IterEnv :=
  { userContinues := true, links := [c6link], download := .success }

/-- Iteration environment whose page renders no download links. -/
def c8env : IterEnv :=
  { userContinues := true, links := [], download := .success }

/-- Link element for part 1 marked as already downloaded. -/
def c9link1 : LinkElem :=
  { aria_label := some "Download again part 1 of 2", href := some "d1"
    li_text := "Download started", data_size := none }

/-- Link element for part 2 marked as already downloaded. -/
def c9link2 : LinkElem :=
  { aria_label := some "Download again part 2 of 2", href := some "d2"
    li_text := "Download started", data_size := none }

/-- Iteration environment whose catalog is entirely already
downloaded. -/
def c9env : IterEnv :=
  { userContinues := true, links := [c9link1, c9link2], download := .success }

/-- Membership and key facts recovered from a successful part lookup. -/
theorem find_part_ok_mem (parts : List PartInfo) (pn : Int) (p : PartInfo)
    (h : find_part_to_download parts pn = .ok p) :
    p ∈ parts ∧ p.part_number = pn := by
  unfold find_part_to_download at h
  cases hf : parts.find? (fun q => q.part_number == pn) with
  | none => rw [hf] at h; cases h
  | some q =>
    rw [hf] at h
    injection h with h
    subst h
    exact ⟨List.mem_of_find?_eq_some hf, by simpa using List.find?_some hf⟩

/-- C1 (code evaluated at the failing input): over the catalog with
part 1 not yet downloaded and part 2 already downloaded, a run with
start = 1 and skip enabled downloads and persists part 1 and skips
part 2 without a trigger, but then, because the skip branch re-enters
the loop without reaching the termination check, re-iterates at cursor
3 and aborts with the fatal part-not-found error instead of
terminating normally. -/
theorem c1_skip_bypasses_termination :
    run_loop true 1 [c1env, c1env, c1env]
      = (RunOut.fatalErr
          "Fatal error: Part 3 not found in available parts. Available parts: [1, 2]",
         [LoopAct.confirm 1, LoopAct.authRec, LoopAct.trigger 1,
          LoopAct.authRecPost, LoopAct.persist 1,
          LoopAct.confirm 2, LoopAct.authRec, LoopAct.skipPart 2,
          LoopAct.confirm 3, LoopAct.authRec]) := by decide

/-- C2 counterexample: driven by a classifier that returns Unknown on
every tick, after 10 consecutive Unknown classifications the machine
has not yet escalated to the human-blocking prompt (all ten ticks were
wait-and-retry) and its counter stands at 10, refuting escalation
after exactly 10. -/
theorem c2_counterexample :
    TickAction.promptUnknown ∉
        (runTicks authInit (List.replicate 10 AuthState.UNKNOWN)).2.1 ∧
      (runTicks authInit (List.replicate 10 AuthState.UNKNOWN)).1.unknown_count
        = 10 := by decide

/-- C2 amended: driven by a classifier that always returns Unknown,
the machine waits and retries on each of the first 10 ticks (counter
at or below the threshold compares false) and escalates to the
human-blocking prompt on the 11th consecutive Unknown classification,
resetting its counter to zero. -/
theorem c2_escalates_after_eleven :
    runTicks authInit (List.replicate 11 AuthState.UNKNOWN)
      = ({ current_state := AuthState.UNKNOWN, unknown_count := 0 },
         List.replicate 10 TickAction.waitRetry ++ [TickAction.promptUnknown],
         false) := by decide

/-- C7: whenever an expected size is supplied and the saved artifact
size differs from it, handle_download emits the size-mismatch warning,
returns normally, and still attempts removal of the temporary
artifact; a removal failure surfaces only as the removal warning. -/
theorem c7_size_mismatch_nonfatal (d : DownloadH) (e : Int)
    (h : (d.actualSize : Int) ≠ e) :
    handle_download d (some e)
      = { sizeMismatchWarned := true, attemptedRemove := true,
          removeWarned := !d.unlinkOk } := by
  unfold handle_download
  simp [h]

/-- C7 witness: a simulated download expected at 1000 bytes whose
artifact is 999 bytes, with the temporary-file removal failing. -/
theorem c7_witness :
    ((999 : Int) ≠ 1000) ∧
      handle_download
          { suggested_filename := "takeout-001.zip", actualSize := 999,
            unlinkOk := false } (some 1000)
        = { sizeMismatchWarned := true, attemptedRemove := true,
            removeWarned := true } :=
  ⟨by decide, c7_size_mismatch_nonfatal
    { suggested_filename := "takeout-001.zip", actualSize := 999,
      unlinkOk := false } 1000 (by decide)⟩

/-- C4: the classifier (a function, hence exactly one state per call)
returns NeedsPassword only when the password URL pattern matches and at
least one password input element is present on the page; a URL match
alone never yields NeedsPassword. -/
theorem c4_password_requires_input (pg : PageC)
    (h : evaluate_state pg = AuthState.NEEDS_PASSWORD) :
    strContains GOOGLE_PASSWORD_PAGE_URL_PART pg.url = true ∧
      ∃ n, pg.passwordInputs = some n ∧ 0 < n := by
  have hp : detect_password_page pg = true := by
    unfold evaluate_state at h
    split_ifs at h
    all_goals simp_all
  unfold detect_password_page at hp
  split at hp
  · cases hp
  · next hurl =>
    refine ⟨by simpa using hurl, ?_⟩
    split at hp
    · cases hp
    · next n heq =>
      exact ⟨n, heq, of_decide_eq_true hp⟩

/-- C4 witness: a password-challenge URL with one password input is
classified NeedsPassword, and the theorem applies to it. -/
theorem c4_witness :
    evaluate_state c4page = AuthState.NEEDS_PASSWORD ∧
      (strContains GOOGLE_PASSWORD_PAGE_URL_PART c4page.url = true ∧
        ∃ n, c4page.passwordInputs = some n ∧ 0 < n) :=
  ⟨by decide, c4_password_requires_input c4page (by decide)⟩

instance : IsTotal PartInfo partOrder :=
  ⟨fun a b => Int.le_total a.part_number b.part_number⟩

instance : IsTrans PartInfo partOrder :=
  ⟨fun _ _ _ hab hbc => le_trans hab hbc⟩

/-- C3 counterexample: a page whose link elements repeat the label of
part 1 produces a catalog with two records of part number 1, so the
output is not duplicate-free for every page. -/
theorem c3_counterexample :
    ¬ (∀ (links : List LinkElem) (res : List PartInfo),
        extract_parts_info links = some res →
          List.Pairwise (fun a b => a.part_number ≠ b.part_number) res) := by
  intro hall
  have h := hall [c3dupA, c3dupB]
      [{ part_number := 1, link := "u1", downloaded := false, size := none },
       { part_number := 1, link := "u2", downloaded := false, size := none }]
      (by decide)
  rcases List.pairwise_cons.mp h with ⟨hne, _⟩
  exact hne _ (List.mem_cons_self _ _) rfl

/-- C3 amended: for every page whose extraction returns a list, that
list is sorted ascending (non-strictly) by part number; it is free of
duplicate part numbers exactly when the records parsed from the page
already carry pairwise distinct part numbers, which a page with
repeated labels need not provide. -/
theorem c3_sorted_and_conditional_nodup (links : List LinkElem)
    (res : List PartInfo) (h : extract_parts_info links = some res) :
    List.Sorted partOrder res ∧
      ∀ raw, extractList links = Except.ok raw →
        ((raw.map fun p => p.part_number).Nodup →
          (res.map fun p => p.part_number).Nodup) := by
  unfold extract_parts_info at h
  cases hE : extractList links with
  | error e => rw [hE] at h; cases h
  | ok ps =>
    rw [hE] at h
    injection h with h
    subst h
    refine ⟨List.sorted_insertionSort partOrder ps, ?_⟩
    intro raw hraw hnd
    injection hraw with hraw
    subst hraw
    exact ((List.perm_insertionSort partOrder _).map
      (fun p => p.part_number)).nodup_iff.mpr hnd

/-- C3 witness: a page listing part 2 before part 1 extracts to the
catalog sorted as part 1 then part 2, and distinct parsed part numbers
yield a duplicate-free result. -/
theorem c3_witness :
    List.Sorted partOrder
        [{ part_number := 1, link := "v1", downloaded := false, size := none },
         { part_number := 2, link := "v2", downloaded := false, size := none }] ∧
      ∀ raw, extractList [c3okA, c3okB] = Except.ok raw →
        ((raw.map fun p => p.part_number).Nodup →
          (([{ part_number := 1, link := "v1", downloaded := false, size := none },
              { part_number := 2, link := "v2", downloaded := false, size := none }]
            : List PartInfo).map fun p => p.part_number).Nodup) :=
  c3_sorted_and_conditional_nodup [c3okA, c3okB]
    [{ part_number := 1, link := "v1", downloaded := false, size := none },
     { part_number := 2, link := "v2", downloaded := false, size := none }]
    (by decide)

/-- C5: whenever the extracted catalog is non-empty and no record
carries the cursor value, the iteration aborts the run with the
ValueError report naming the missing part and all available part
numbers; the remaining iterations are never executed (the error is not
converted into a retry) and no download trigger occurs. -/
theorem c5_missing_part_fatal (skip_downloaded : Bool) (i : Int)
    (env : IterEnv) (rest : List IterEnv) (parts : List PartInfo)
    (h1 : env.userContinues = true)
    (h2 : extract_parts_info env.links = some parts)
    (h3 : parts ≠ [])
    (h4 : ∀ p ∈ parts, p.part_number ≠ i) :
    run_loop skip_downloaded i (env :: rest)
      = (RunOut.fatalErr ("Fatal error: Part " ++ toString i
            ++ " not found in available parts. Available parts: "
            ++ toString (parts.map fun p => p.part_number)),
         [LoopAct.confirm i, LoopAct.authRec]) := by
  have hfind : parts.find? (fun p => p.part_number == i) = none :=
    List.find?_eq_none.mpr (fun p hp => by simpa using h4 p hp)
  have hne : parts.isEmpty = false := by
    cases parts with
    | nil => exact absurd rfl h3
    | cons a l => rfl
  have hstep : stepOnce skip_downloaded i env
      = (StepRes.fatal ("Fatal error: Part " ++ toString i
          ++ " not found in available parts. Available parts: "
          ++ toString (parts.map fun p => p.part_number)),
         [LoopAct.confirm i, LoopAct.authRec]) := by
    unfold stepOnce find_part_to_download
    simp [h1, h2, hne, hfind]
  unfold run_loop
  rw [hstep]

/-- C5 witness: the catalog with parts 1, 2, 3 and start part 5
aborts reporting the available parts 1, 2, 3 with no trigger. -/
theorem c5_witness :
    run_loop true 5 [c5env]
      = (RunOut.fatalErr ("Fatal error: Part " ++ toString (5 : Int)
            ++ " not found in available parts. Available parts: "
            ++ toString (c5parts.map fun p => p.part_number)),
         [LoopAct.confirm 5, LoopAct.authRec]) :=
  c5_missing_part_fatal true 5 c5env [] c5parts rfl (by decide) (by decide)
    (by decide)

/-- C8: whenever the operator lets the iteration proceed and the
refreshed catalog is empty, the iteration neither aborts nor advances
the cursor: the loop re-enters with the same cursor value, so the next
iteration re-runs authentication recovery at that cursor. -/
theorem c8_empty_catalog_reloops (skip_downloaded : Bool) (i : Int)
    (env : IterEnv) (rest : List IterEnv)
    (h1 : env.userContinues = true)
    (h2 : extract_parts_info env.links = some []) :
    stepOnce skip_downloaded i env
        = (StepRes.continueWith i, [LoopAct.confirm i, LoopAct.authRec]) ∧
      run_loop skip_downloaded i (env :: rest)
        = ((run_loop skip_downloaded i rest).1,
           [LoopAct.confirm i, LoopAct.authRec]
             ++ (run_loop skip_downloaded i rest).2) := by
  have hstep : stepOnce skip_downloaded i env
      = (StepRes.continueWith i, [LoopAct.confirm i, LoopAct.authRec]) := by
    unfold stepOnce
    rw [h1, h2]
    rfl
  refine ⟨hstep, ?_⟩
  conv_lhs => rw [run_loop]
  rw [hstep]

/-- C8 witness: a page rendering no parts at cursor 7 re-loops at
cursor 7 without an error outcome. -/
theorem c8_witness :
    stepOnce true 7 c8env
        = (StepRes.continueWith 7, [LoopAct.confirm 7, LoopAct.authRec]) ∧
      run_loop true 7 [c8env]
        = ((run_loop true 7 ([] : List IterEnv)).1,
           [LoopAct.confirm 7, LoopAct.authRec]
             ++ (run_loop true 7 ([] : List IterEnv)).2) :=
  c8_empty_catalog_reloops true 7 c8env [] rfl (by decide)

/-- Cursor movement of one iteration: when the iteration continues or
finishes with cursor i2, the cursor never decreased, and a strict
advance happens only together with a recorded persist (download
success) or skip action for the old cursor. -/
theorem stepOnce_advance (skip_downloaded : Bool) (j : Int) (env : IterEnv)
    (res : StepRes) (acts : List LoopAct)
    (h : stepOnce skip_downloaded j env = (res, acts)) (i2 : Int)
    (h2 : res = StepRes.continueWith i2 ∨ res = StepRes.finished i2) :
    j ≤ i2 ∧ (j = i2 ∨ LoopAct.persist j ∈ acts ∨ LoopAct.skipPart j ∈ acts) := by
  unfold stepOnce at h
  split at h
  · split at h
    · rw [Prod.mk.injEq] at h
      obtain ⟨rfl, rfl⟩ := h
      rcases h2 with h2 | h2 <;> cases h2
    · split at h
      · rw [Prod.mk.injEq] at h
        obtain ⟨rfl, rfl⟩ := h
        rcases h2 with h2 | h2
        · injection h2 with h3
          subst h3
          exact ⟨le_refl _, Or.inl rfl⟩
        · cases h2
      · split at h
        · rw [Prod.mk.injEq] at h
          obtain ⟨rfl, rfl⟩ := h
          rcases h2 with h2 | h2 <;> cases h2
        · split at h
          · rw [Prod.mk.injEq] at h
            obtain ⟨rfl, rfl⟩ := h
            rcases h2 with h2 | h2
            · injection h2 with h3
              subst h3
              exact ⟨by omega, Or.inr (Or.inr (by simp))⟩
            · cases h2
          · split at h
            · split at h
              · rw [Prod.mk.injEq] at h
                obtain ⟨rfl, rfl⟩ := h
                rcases h2 with h2 | h2
                · cases h2
                · injection h2 with h3
                  subst h3
                  exact ⟨by omega, Or.inr (Or.inl (by simp))⟩
              · rw [Prod.mk.injEq] at h
                obtain ⟨rfl, rfl⟩ := h
                rcases h2 with h2 | h2
                · injection h2 with h3
                  subst h3
                  exact ⟨by omega, Or.inr (Or.inl (by simp))⟩
                · cases h2
            · rw [Prod.mk.injEq] at h
              obtain ⟨rfl, rfl⟩ := h
              rcases h2 with h2 | h2
              · injection h2 with h3
                subst h3
                exact ⟨le_refl _, Or.inl rfl⟩
              · cases h2
            · rw [Prod.mk.injEq] at h
              obtain ⟨rfl, rfl⟩ := h
              rcases h2 with h2 | h2
              · injection h2 with h3
                subst h3
                exact ⟨le_refl _, Or.inl rfl⟩
              · cases h2
  · rw [Prod.mk.injEq] at h
    obtain ⟨rfl, rfl⟩ := h
    rcases h2 with h2 | h2 <;> cases h2

/-- The cursor trace always begins with the initial cursor. -/
theorem cursorTrace_head (skip_downloaded : Bool) (i : Int)
    (envs : List IterEnv) :
    ∃ t, cursorTrace skip_downloaded i envs = i :: t := by
  cases envs with
  | nil => exact ⟨[], rfl⟩
  | cons env rest =>
    unfold cursorTrace
    cases hs : stepOnce skip_downloaded i env with
    | mk res acts => cases res <;> exact ⟨_, rfl⟩

/-- The successive cursor values of any run are non-decreasing. -/
theorem cursorTrace_chain (skip_downloaded : Bool) (i : Int)
    (envs : List IterEnv) :
    List.Chain' (fun a b : Int => a ≤ b)
      (cursorTrace skip_downloaded i envs) := by
  induction envs generalizing i with
  | nil => simp [cursorTrace]
  | cons env rest ih =>
    unfold cursorTrace
    cases hs : stepOnce skip_downloaded i env with
    | mk res acts =>
      cases res with
      | continueWith i2 =>
        obtain ⟨t, ht⟩ := cursorTrace_head skip_downloaded i2 rest
        have hle := (stepOnce_advance skip_downloaded i env _ _ hs i2
          (Or.inl rfl)).1
        have hch := ih i2
        rw [ht] at hch
        show List.Chain' (fun a b : Int => a ≤ b)
          (i :: cursorTrace skip_downloaded i2 rest)
        rw [ht]
        exact List.chain'_cons.mpr ⟨hle, hch⟩
      | finished i2 =>
        have hle := (stepOnce_advance skip_downloaded i env _ _ hs i2
          (Or.inr rfl)).1
        show List.Chain' (fun a b : Int => a ≤ b) [i, i2]
        simp [List.chain'_cons, hle]
      | interrupted =>
        show List.Chain' (fun a b : Int => a ≤ b) [i]
        simp
      | errExtract =>
        show List.Chain' (fun a b : Int => a ≤ b) [i]
        simp
      | fatal msg =>
        show List.Chain' (fun a b : Int => a ≤ b) [i]
        simp

/-- C6: across any sequence of iterations (empty-catalog re-loops and
failure retries included) the cursor values form a non-decreasing
sequence, and an iteration strictly advances the cursor only on a
recorded download success (persist) or an explicit skip of an
already-downloaded part; otherwise the cursor is unchanged. -/
theorem c6_cursor_monotone (skip_downloaded : Bool) (i : Int)
    (envs : List IterEnv) (j : Int) (env : IterEnv) (res : StepRes)
    (acts : List LoopAct) (i2 : Int)
    (h : stepOnce skip_downloaded j env = (res, acts))
    (h2 : res = StepRes.continueWith i2 ∨ res = StepRes.finished i2) :
    List.Chain' (fun a b : Int => a ≤ b)
        (cursorTrace skip_downloaded i envs) ∧
      (j ≤ i2 ∧
        (j = i2 ∨ LoopAct.persist j ∈ acts ∨ LoopAct.skipPart j ∈ acts)) :=
  ⟨cursorTrace_chain skip_downloaded i envs,
   stepOnce_advance skip_downloaded j env res acts h i2 h2⟩

/-- C6 witness: the one-part catalog with a successful download at
cursor 1 has non-decreasing trace and advances 1 to 2 with a recorded
persist action. -/
theorem c6_witness :
    List.Chain' (fun a b : Int => a ≤ b) (cursorTrace true 1 [c6env]) ∧
      ((1 : Int) ≤ 2 ∧
        ((1 : Int) = 2 ∨
          LoopAct.persist 1 ∈
            [LoopAct.confirm 1, LoopAct.authRec, LoopAct.trigger 1,
             LoopAct.authRecPost, LoopAct.persist 1] ∨
          LoopAct.skipPart 1 ∈
            [LoopAct.confirm 1, LoopAct.authRec, LoopAct.trigger 1,
             LoopAct.authRecPost, LoopAct.persist 1])) :=
  c6_cursor_monotone true 1 [c6env] 1 c6env (StepRes.finished 2)
    [LoopAct.confirm 1, LoopAct.authRec, LoopAct.trigger 1,
     LoopAct.authRecPost, LoopAct.persist 1] 2 (by decide) (Or.inr rfl)

/-- With skipping enabled, an iteration over a catalog whose records
are all marked downloaded records no download trigger: whenever the
part lookup succeeds the skip branch is taken. -/
theorem stepOnce_all_downloaded_no_trigger (j : Int) (env : IterEnv)
    (hdl : ∀ parts, extract_parts_info env.links = some parts →
      ∀ p ∈ parts, p.downloaded = true)
    (res : StepRes) (acts : List LoopAct)
    (h : stepOnce true j env = (res, acts)) (k : Int) :
    LoopAct.trigger k ∉ acts := by
  unfold stepOnce at h
  split at h
  · split at h
    · rw [Prod.mk.injEq] at h
      obtain ⟨rfl, rfl⟩ := h
      simp
    · rename_i parts hparts
      split at h
      · rw [Prod.mk.injEq] at h
        obtain ⟨rfl, rfl⟩ := h
        simp
      · split at h
        · rw [Prod.mk.injEq] at h
          obtain ⟨rfl, rfl⟩ := h
          simp
        · rename_i part hfind
          split at h
          · rw [Prod.mk.injEq] at h
            obtain ⟨rfl, rfl⟩ := h
            simp
          · rename_i hcond
            exfalso
            have hmem := find_part_ok_mem parts j part hfind
            have hd := hdl parts hparts part hmem.1
            exact hcond (by simp [hd])
  · rw [Prod.mk.injEq] at h
    obtain ⟨rfl, rfl⟩ := h
    simp

/-- C9: with skipping enabled, any run over pages whose extracted
catalogs are entirely marked downloaded performs zero download
triggers; every iteration that finds its part takes the skip branch,
so any repeated run over the same all-downloaded catalogs is likewise
trigger-free. -/
theorem c9_all_downloaded_no_trigger (i : Int) (envs : List IterEnv)
    (h : ∀ env ∈ envs, ∀ parts, extract_parts_info env.links = some parts →
      ∀ p ∈ parts, p.downloaded = true) (k : Int) :
    LoopAct.trigger k ∉ (run_loop true i envs).2 := by
  have main : ∀ (es : List IterEnv) (j : Int),
      (∀ env ∈ es, ∀ parts, extract_parts_info env.links = some parts →
        ∀ p ∈ parts, p.downloaded = true) →
      LoopAct.trigger k ∉ (run_loop true j es).2 := by
    intro es
    induction es with
    | nil =>
      intro j hs
      simp [run_loop]
    | cons env rest ih =>
      intro j hs
      rw [run_loop]
      cases hstep : stepOnce true j env with
      | mk res acts =>
        have hna := stepOnce_all_downloaded_no_trigger j env
          (hs env (List.mem_cons_self env rest)) res acts hstep k
        cases res with
        | continueWith i2 =>
          show LoopAct.trigger k ∉ acts ++ (run_loop true i2 rest).2
          intro hmem
          rcases List.mem_append.mp hmem with hmem | hmem
          · exact hna hmem
          · exact ih i2 (fun e he => hs e (List.mem_cons_of_mem env he)) hmem
        | interrupted => exact hna
        | errExtract => exact hna
        | fatal m => exact hna
        | finished i2 => exact hna
  exact main envs i h

/-- C9 witness: three iterations over the fully-downloaded two-part
catalog record no trigger of part 1. -/
theorem c9_witness :
    LoopAct.trigger 1 ∉ (run_loop true 1 [c9env, c9env, c9env]).2 :=
  c9_all_downloaded_no_trigger 1 [c9env, c9env, c9env]
    (by
      intro env henv parts hp p hpm
      have he : env = c9env := by
        simp only [List.mem_cons, List.not_mem_nil, or_false] at henv
        rcases henv with h1 | h1 | h1 <;> exact h1
      subst he
      have hL : extract_parts_info c9env.links
          = some [{ part_number := 1, link := "d1", downloaded := true,
                    size := none },
                  { part_number := 2, link := "d2", downloaded := true,
                    size := none }] := by decide
      rw [hL] at hp
      injection hp with hp
      subst hp
      simp only [List.mem_cons, List.not_mem_nil, or_false] at hpm
      rcases hpm with h1 | h1 <;> (subst h1; rfl))
    1

/-- Any non-Unknown classification resets the consecutive-unknown
counter at the start of the tick. -/
theorem tick_nonUnknown_count (st : MachineState) (c : AuthState)
    (h : c ≠ AuthState.UNKNOWN) : ((tick st c).1).unknown_count = 0 := by
  cases c with
  | UNKNOWN => exact absurd rfl h
  | ARCHIVE_READY => unfold tick; split <;> split <;> simp_all
  | NEEDS_IDENTIFIER => unfold tick; split <;> split <;> simp_all
  | NEEDS_PASSWORD => unfold tick; split <;> split <;> simp_all
  | NEEDS_2FA => unfold tick; split <;> split <;> simp_all
  | ERROR => unfold tick; split <;> split <;> simp_all

/-- A tick classified ArchiveReady always ends the loop. -/
theorem tick_ready_done (st : MachineState) :
    (tick st AuthState.ARCHIVE_READY).2.2 = true := by
  unfold tick
  split <;> (split <;> simp)

/-- Closed form of a tick classified Unknown: below the cap the machine
waits and retries with an incremented counter, above it it prompts and
resets. -/
theorem tick_unknown_eq (st : MachineState) :
    tick st AuthState.UNKNOWN =
      (if st.unknown_count + 1 > 10 then
        ({ current_state := AuthState.UNKNOWN, unknown_count := 0 },
         TickAction.promptUnknown, false)
      else
        ({ current_state := AuthState.UNKNOWN,
           unknown_count := st.unknown_count + 1 },
         TickAction.waitRetry, false)) := by
  unfold tick
  split
  · split
    · rfl
    · next hcond => exact absurd (Or.inr rfl) hcond
  · next hcond => exact absurd rfl hcond

/-- A tick list of Unknown classifications only has a trailing-unknown
run equal to its whole length. -/
theorem trailingUnknowns_all (l : List AuthState)
    (h : l.all (fun s => s == AuthState.UNKNOWN) = true) :
    trailingUnknowns l = l.length := by
  induction l with
  | nil => rfl
  | cons c rest ih =>
    rw [List.all_cons] at h
    obtain ⟨hc, hrest⟩ := Bool.and_eq_true_iff.mp h
    have hcc : c = AuthState.UNKNOWN := by simpa using hc
    simp [trailingUnknowns, hcc, hrest]

/-- Counter value after a prompt-free, non-terminating run of ticks:
the counter counts the trailing Unknown run, on top of the initial
counter when every tick was Unknown. -/
theorem runTicks_count (l : List AuthState) : ∀ (st st2 : MachineState)
    (acts : List TickAction) (d : Bool),
    runTicks st l = (st2, acts, d) → TickAction.promptUnknown ∉ acts →
    d = false →
    st2.unknown_count =
      (if l.all (fun s => s == AuthState.UNKNOWN) then
        st.unknown_count + l.length
      else trailingUnknowns l) := by
  induction l with
  | nil =>
    intro st st2 acts d h hp hd
    simp only [runTicks, Prod.mk.injEq] at h
    obtain ⟨rfl, rfl, rfl⟩ := h
    simp
  | cons c rest ih =>
    intro st st2 acts d h hp hd
    rw [runTicks] at h
    rcases htick : tick st c with ⟨st1, act, done⟩
    rw [htick] at h
    cases done with
    | true =>
      simp only [Prod.mk.injEq] at h
      obtain ⟨rfl, rfl, rfl⟩ := h
      simp at hd
    | false =>
      rcases hrun : runTicks st1 rest with ⟨st2r, acts2, d2⟩
      rw [hrun] at h
      simp only [Prod.mk.injEq] at h
      obtain ⟨rfl, rfl, rfl⟩ := h
      have hact : act ≠ TickAction.promptUnknown :=
        fun he => hp (he ▸ List.mem_cons_self _ _)
      have hp2 : TickAction.promptUnknown ∉ acts2 :=
        fun hm => hp (List.mem_cons_of_mem _ hm)
      have ihh := ih st1 _ _ _ hrun hp2 hd
      cases c with
      | UNKNOWN =>
        rw [tick_unknown_eq] at htick
        split at htick
        · simp only [Prod.mk.injEq] at htick
          exact absurd htick.2.1.symm hact
        · simp only [Prod.mk.injEq] at htick
          obtain ⟨hst1, -, -⟩ := htick
          rw [ihh, ← hst1]
          by_cases hall : rest.all (fun s => s == AuthState.UNKNOWN) = true
          · simp [hall, List.all_cons]
            omega
          · simp [hall, List.all_cons, trailingUnknowns]
      | ARCHIVE_READY =>
        have := tick_ready_done st
        rw [htick] at this
        simp at this
      | NEEDS_IDENTIFIER =>
        have hc0 : st1.unknown_count = 0 := by
          have := tick_nonUnknown_count st AuthState.NEEDS_IDENTIFIER (by decide)
          rw [htick] at this
          simpa using this
        rw [ihh, hc0]
        by_cases hall : rest.all (fun s => s == AuthState.UNKNOWN) = true
        · simp [hall, List.all_cons, trailingUnknowns]
          exact (trailingUnknowns_all rest hall).symm
        · simp [hall, List.all_cons, trailingUnknowns]
      | NEEDS_PASSWORD =>
        have hc0 : st1.unknown_count = 0 := by
          have := tick_nonUnknown_count st AuthState.NEEDS_PASSWORD (by decide)
          rw [htick] at this
          simpa using this
        rw [ihh, hc0]
        by_cases hall : rest.all (fun s => s == AuthState.UNKNOWN) = true
        · simp [hall, List.all_cons, trailingUnknowns]
          exact (trailingUnknowns_all rest hall).symm
        · simp [hall, List.all_cons, trailingUnknowns]
      | NEEDS_2FA =>
        have hc0 : st1.unknown_count = 0 := by
          have := tick_nonUnknown_count st AuthState.NEEDS_2FA (by decide)
          rw [htick] at this
          simpa using this
        rw [ihh, hc0]
        by_cases hall : rest.all (fun s => s == AuthState.UNKNOWN) = true
        · simp [hall, List.all_cons, trailingUnknowns]
          exact (trailingUnknowns_all rest hall).symm
        · simp [hall, List.all_cons, trailingUnknowns]
      | ERROR =>
        have hc0 : st1.unknown_count = 0 := by
          have := tick_nonUnknown_count st AuthState.ERROR (by decide)
          rw [htick] at this
          simpa using this
        rw [ihh, hc0]
        by_cases hall : rest.all (fun s => s == AuthState.UNKNOWN) = true
        · simp [hall, List.all_cons, trailingUnknowns]
          exact (trailingUnknowns_all rest hall).symm
        · simp [hall, List.all_cons, trailingUnknowns]

/-- C10 counterexample: over twelve consecutive Unknown ticks (and not
a single non-Unknown tick) the counter ends at 1, not 12, because the
escalation prompt at the eleventh tick also reset it; so the counter
does not always equal the number of consecutive Unknown
classifications since the last non-Unknown tick. -/
theorem c10_counterexample :
    (runTicks authInit (List.replicate 12 AuthState.UNKNOWN)).1.unknown_count
      ≠ trailingUnknowns (List.replicate 12 AuthState.UNKNOWN) := by decide

/-- C10 amended: any non-Unknown classification resets the counter at
the tick start (not only the escalation prompt), and as long as no
escalation prompt occurred and the machine has not returned, the
counter equals the number of consecutive Unknown classifications since
the last non-Unknown tick; after an escalation prompt the count
restarts from the prompt instead. -/
theorem c10_counter_reset_characterization :
    (∀ (st : MachineState) (c : AuthState), c ≠ AuthState.UNKNOWN →
      ((tick st c).1).unknown_count = 0) ∧
    (∀ (l : List AuthState) (st2 : MachineState) (acts : List TickAction)
      (d : Bool), runTicks authInit l = (st2, acts, d) →
      TickAction.promptUnknown ∉ acts → d = false →
      st2.unknown_count = trailingUnknowns l) := by
  refine ⟨tick_nonUnknown_count, ?_⟩
  intro l st2 acts d h hp hd
  rw [runTicks_count l authInit st2 acts d h hp hd]
  by_cases hall : l.all (fun s => s == AuthState.UNKNOWN) = true
  · simp [hall, authInit]
    exact (trailingUnknowns_all l hall).symm
  · simp [hall]

/-- C10 witness: a 2FA tick resets the counter, and after the tick
list Unknown, 2FA, Unknown (prompt-free, not terminated) the counter
equals the trailing Unknown run of length 1. -/
theorem c10_witness :
    ((tick authInit AuthState.NEEDS_2FA).1).unknown_count = 0 ∧
      (runTicks authInit
          [AuthState.UNKNOWN, AuthState.NEEDS_2FA,
           AuthState.UNKNOWN]).1.unknown_count
        = trailingUnknowns
            [AuthState.UNKNOWN, AuthState.NEEDS_2FA, AuthState.UNKNOWN] := by
  constructor
  · exact c10_counter_reset_characterization.1 authInit AuthState.NEEDS_2FA
      (by decide)
  · exact c10_counter_reset_characterization.2
      [AuthState.UNKNOWN, AuthState.NEEDS_2FA, AuthState.UNKNOWN]
      { current_state := AuthState.UNKNOWN, unknown_count := 1 }
      [TickAction.waitRetry, TickAction.prompt2fa, TickAction.waitRetry]
      false rfl (by decide) rfl
